import Mathlib

/-!
Shallow embedding of `src/programs/scope/src/oracles/mod.rs` (the scope
price-oracle dispatch and validation core).

Modelling conventions:
- machine integers are `Nat` (u8/u16/u32/u64) or `Int` (i64); no arithmetic
  overflows occur in this file's code paths;
- a Rust `panic!` (or `.unwrap()` failure) is modelled as `Option.none` on the
  function's result: `none` means the call aborts, `some r` means it returns `r`;
- `crate::Result<T>` is `Except ScopeError T`;
- the external source adapters (pyth, switchboard_v2, ctokens, ...) are out of
  scope of the core and are passed in as an `Adapters` record of functions,
  mirroring exactly the calls `get_price` / `validate_oracle_cfg` make;
- the `yvaults` cargo feature is taken as enabled, so the KToken branches call
  their adapters (the claims below do not depend on this choice).
-/

namespace Scope

/-- Modelled from the spec: an opaque reference to an already-materialized
account (`AccountInfo` is defined outside `src/`); the core never inspects its
contents, only its identity. -/
structure AccountInfo where
  key : Nat
deriving DecidableEq

/-- Modelled from the spec: the caller-supplied time source
`now: {slot: u64, unix_time: i64}` (`Clock` is defined outside `src/`). -/
structure Clock where
  slot : Nat
  unix_timestamp : Int
deriving DecidableEq

/-- Modelled from the spec: `Price` is a fixed-point value (mantissa +
exponent), default = zero value with zero exponent; the type itself is defined
outside `src/`. -/
structure Price where
  mantissa : Nat := 0
  exponent : Nat := 0
deriving DecidableEq

/-- Modelled from the spec: `DatedPrice` is
`{ price, last_updated_slot: u64, unix_timestamp: u64, generic_metadata }`,
defined outside `src/`; `..Default::default()` fills the metadata with its
default value. -/
structure DatedPrice where
  price : Price := {}
  last_updated_slot : Nat := 0
  unix_timestamp : Nat := 0
  generic_metadata : List Nat := []
deriving DecidableEq

/-- Modelled from the spec: the error kinds of `ScopeError` that this core
raises by name (`UnexpectedAccount`, `PriceNotValid`, `FixedPriceInvalid`);
`other` stands for any error produced by an external adapter or by the
account-loading substrate. -/
inductive ScopeError where
  | UnexpectedAccount
  | PriceNotValid
  | FixedPriceInvalid
  | other (code : Nat)
deriving DecidableEq

/-- Modelled from the spec: `OracleMappings` is an ordered table indexed by
slot; this core only reads its 20-byte inline generic payload column, so only
that column is modelled (`generic[index]` is the byte list at a slot). -/
structure OracleMappings where
  generic : Nat → List Nat

/-- Modelled from the spec: `OracleTwaps` is a per-slot rolling history of
prior observations; defined outside `src/`, read only by the (external) twap
adapter. -/
structure OracleTwaps where
  history : Nat → List DatedPrice

/-- Modelled from the spec: `OraclePrices` is the shared array of
most-recently-resolved `DatedPrice` values, one per mapping slot. -/
structure OraclePrices where
  prices : Nat → DatedPrice

/-- Modelled from the spec: an anchor `AccountLoader<T>` handle: it has an
address (`key()`) and a fallible `load()` giving the current contents. -/
structure AccountLoader (T : Type) where
  key : Nat
  load : Except ScopeError T

/-- Modelled from the spec: Borsh (`AnchorDeserialize`) little-endian read of
one u64 from a byte stream; fails when fewer than 8 bytes remain. -/
def readU64LE : List Nat → Option (Nat × List Nat)
  | b0 :: b1 :: b2 :: b3 :: b4 :: b5 :: b6 :: b7 :: rest =>
      some (b0 + 256 * (b1 + 256 * (b2 + 256 * (b3 + 256 * (b4 + 256 * (b5 + 256 *
        (b6 + 256 * b7)))))), rest)
  | _ => none

/-- Modelled from the spec: `AnchorDeserialize::deserialize` for `Price`:
its two u64 fields are read little-endian from the front of the stream; the
unread tail is returned (Borsh `deserialize` does not require the buffer to be
fully consumed). -/
def Price.deserialize (data : List Nat) : Option (Price × List Nat) :=
  match readU64LE data with
  | none => none
  | some (v, rest) =>
    match readU64LE rest with
    | none => none
    | some (e, rest2) => some ({ mantissa := v, exponent := e }, rest2)

/-- The part of an anchor `Context` read by `check_context`: the remaining
(unconsumed auxiliary) account list. -/
structure Context where
  remaining_accounts : List AccountInfo

/-- Embeds `check_context` (mod.rs lines 32-39): errors with
`UnexpectedAccount` when extra accounts remain, else `Ok(())`. -/
def check_context (ctx : Context) : Except ScopeError Unit :=
  if !ctx.remaining_accounts.isEmpty then
    Except.error ScopeError.UnexpectedAccount
  else
    Except.ok ()

/-- Embeds the `OracleType` enum (mod.rs lines 41-105), in declaration order. -/
inductive OracleType where
  | Pyth
  | DeprecatedPlaceholder1
  | SwitchboardV2
  | DeprecatedPlaceholder2
  | CToken
  | SplStake
  | KToken
  | PythEMA
  | MsolStake
  | KTokenToTokenA
  | KTokenToTokenB
  | JupiterLpFetch
  | ScopeTwap
  | OrcaWhirlpoolAtoB
  | OrcaWhirlpoolBtoA
  | RaydiumAmmV3AtoB
  | RaydiumAmmV3BtoA
  | JupiterLpCompute
  | MeteoraDlmmAtoB
  | MeteoraDlmmBtoA
  | JupiterLpScope
  | PythPullBased
  | PythPullBasedEMA
  | FixedPrice
deriving DecidableEq

/-- Embeds the `IntoPrimitive` (repr(u8)) conversion: each variant's fixed
numeric discriminant from the enum declaration. -/
def OracleType.toU8 : OracleType → Nat
  | .Pyth => 0
  | .DeprecatedPlaceholder1 => 1
  | .SwitchboardV2 => 2
  | .DeprecatedPlaceholder2 => 3
  | .CToken => 4
  | .SplStake => 5
  | .KToken => 6
  | .PythEMA => 7
  | .MsolStake => 8
  | .KTokenToTokenA => 9
  | .KTokenToTokenB => 10
  | .JupiterLpFetch => 11
  | .ScopeTwap => 12
  | .OrcaWhirlpoolAtoB => 13
  | .OrcaWhirlpoolBtoA => 14
  | .RaydiumAmmV3AtoB => 15
  | .RaydiumAmmV3BtoA => 16
  | .JupiterLpCompute => 17
  | .MeteoraDlmmAtoB => 18
  | .MeteoraDlmmBtoA => 19
  | .JupiterLpScope => 20
  | .PythPullBased => 21
  | .PythPullBasedEMA => 22
  | .FixedPrice => 23

/-- Embeds the `TryFromPrimitive` conversion: the wire value back to the
variant, `none` when the value is not a declared discriminant. -/
def OracleType.tryFromU8 : Nat → Option OracleType
  | 0 => some .Pyth
  | 1 => some .DeprecatedPlaceholder1
  | 2 => some .SwitchboardV2
  | 3 => some .DeprecatedPlaceholder2
  | 4 => some .CToken
  | 5 => some .SplStake
  | 6 => some .KToken
  | 7 => some .PythEMA
  | 8 => some .MsolStake
  | 9 => some .KTokenToTokenA
  | 10 => some .KTokenToTokenB
  | 11 => some .JupiterLpFetch
  | 12 => some .ScopeTwap
  | 13 => some .OrcaWhirlpoolAtoB
  | 14 => some .OrcaWhirlpoolBtoA
  | 15 => some .RaydiumAmmV3AtoB
  | 16 => some .RaydiumAmmV3BtoA
  | 17 => some .JupiterLpCompute
  | 18 => some .MeteoraDlmmAtoB
  | 19 => some .MeteoraDlmmBtoA
  | 20 => some .JupiterLpScope
  | 21 => some .PythPullBased
  | 22 => some .PythPullBasedEMA
  | 23 => some .FixedPrice
  | _ => none

/-- Embeds `OracleType::is_twap` (mod.rs lines 108-110):
`matches!(self, OracleType::ScopeTwap)`. -/
def OracleType.is_twap : OracleType → Bool
  | .ScopeTwap => true
  | _ => false

/-- Embeds `OracleType::get_update_cu_budget` (mod.rs lines 113-138); `none`
models the `panic!` on the deprecated placeholder variants. -/
def OracleType.get_update_cu_budget : OracleType → Option Nat
  | .FixedPrice => some 10000
  | .PythPullBased => some 20000
  | .PythPullBasedEMA => some 20000
  | .Pyth => some 30000
  | .SwitchboardV2 => some 30000
  | .CToken => some 130000
  | .SplStake => some 20000
  | .KToken => some 120000
  | .PythEMA => some 30000
  | .KTokenToTokenA | .KTokenToTokenB => some 100000
  | .MsolStake => some 20000
  | .JupiterLpFetch => some 40000
  | .ScopeTwap => some 30000
  | .OrcaWhirlpoolAtoB | .OrcaWhirlpoolBtoA
  | .RaydiumAmmV3AtoB | .RaydiumAmmV3BtoA => some 25000
  | .MeteoraDlmmAtoB | .MeteoraDlmmBtoA => some 30000
  | .JupiterLpCompute | .JupiterLpScope => some 120000
  | .DeprecatedPlaceholder1 | .DeprecatedPlaceholder2 => none

/-- Embeds which A-to-B orientation flag each CLMM branch passes. -/
inductive TokenTypes where
  | TokenA
  | TokenB
deriving DecidableEq

/-- The external source adapters, one field per call site of `get_price` and
`validate_oracle_cfg`; they are out of the core's scope (spec §4.2) and are
threaded in as opaque functions with the exact argument lists of the source. -/
structure Adapters where
  pyth_get_price : AccountInfo → Clock → Except ScopeError DatedPrice
  pyth_pull_based_get_price : AccountInfo → Clock → Except ScopeError DatedPrice
  pyth_pull_based_ema_get_price : AccountInfo → Clock → Except ScopeError DatedPrice
  switchboard_v2_get_price : AccountInfo → Except ScopeError DatedPrice
  ctokens_get_price : AccountInfo → Clock → Except ScopeError DatedPrice
  spl_stake_get_price : AccountInfo → Clock → Except ScopeError DatedPrice
  ktokens_get_price : AccountInfo → Clock → List AccountInfo → Except ScopeError DatedPrice
  pyth_ema_get_price : AccountInfo → Clock → Except ScopeError DatedPrice
  ktokens_token_x_get_token_x_per_share :
    AccountInfo → Clock → List AccountInfo → TokenTypes → Except ScopeError DatedPrice
  msol_stake_get_price : AccountInfo → Clock → Except ScopeError DatedPrice
  jupiter_lp_get_price_no_recompute :
    AccountInfo → Clock → List AccountInfo → Except ScopeError DatedPrice
  twap_get_price : OracleMappings → OracleTwaps → Nat → Clock → Except ScopeError DatedPrice
  orca_whirlpool_get_price :
    Bool → AccountInfo → Clock → List AccountInfo → Except ScopeError DatedPrice
  raydium_ammv3_get_price : Bool → AccountInfo → Clock → Except ScopeError DatedPrice
  meteora_dlmm_get_price :
    Bool → AccountInfo → Clock → List AccountInfo → Except ScopeError DatedPrice
  jupiter_lp_get_price_recomputed :
    AccountInfo → Clock → List AccountInfo → Except ScopeError DatedPrice
  jupiter_lp_get_price_recomputed_scope :
    Nat → AccountInfo → Clock → Nat → OraclePrices → OracleMappings → List AccountInfo →
    Except ScopeError DatedPrice
  pyth_validate_pyth_price_info : Option AccountInfo → Except ScopeError Unit
  pyth_pull_based_validate_price_update_v2_info : Option AccountInfo → Except ScopeError Unit
  jupiter_lp_validate_jlp_pool : Option AccountInfo → Except ScopeError Unit
  twap_validate_price_account : Option AccountInfo → Nat → Except ScopeError Unit
  orca_whirlpool_validate_pool_account : Option AccountInfo → Except ScopeError Unit
  raydium_ammv3_validate_pool_account : Option AccountInfo → Except ScopeError Unit
  meteora_dlmm_validate_pool_account : Option AccountInfo → Except ScopeError Unit

/-- Embeds `get_price` (mod.rs lines 147-261), the dispatch engine, with the
`yvaults` feature enabled. `none` models an aborting `panic!` / failed
`.unwrap()`; `some r` is the Rust return value `r`. The `map_err` closures of
the source only log and convert the error type, which is the identity here. -/
def get_price (A : Adapters) (price_type : OracleType) (base_account : AccountInfo)
    (extra_accounts : List AccountInfo) (clock : Clock) (oracle_twaps : OracleTwaps)
    (oracle_mappings : OracleMappings) (oracle_prices : AccountLoader OraclePrices)
    (index : Nat) : Option (Except ScopeError DatedPrice) :=
  match price_type with
  | .Pyth => some (A.pyth_get_price base_account clock)
  | .PythPullBased => some (A.pyth_pull_based_get_price base_account clock)
  | .PythPullBasedEMA => some (A.pyth_pull_based_ema_get_price base_account clock)
  | .SwitchboardV2 => some (A.switchboard_v2_get_price base_account)
  | .CToken => some (A.ctokens_get_price base_account clock)
  | .SplStake => some (A.spl_stake_get_price base_account clock)
  | .PythEMA => some (A.pyth_ema_get_price base_account clock)
  | .KToken => some (A.ktokens_get_price base_account clock extra_accounts)
  | .KTokenToTokenA =>
      some (A.ktokens_token_x_get_token_x_per_share base_account clock extra_accounts
        TokenTypes.TokenA)
  | .KTokenToTokenB =>
      some (A.ktokens_token_x_get_token_x_per_share base_account clock extra_accounts
        TokenTypes.TokenB)
  | .MsolStake => some (A.msol_stake_get_price base_account clock)
  | .JupiterLpFetch =>
      some (A.jupiter_lp_get_price_no_recompute base_account clock extra_accounts)
  | .ScopeTwap => some (A.twap_get_price oracle_mappings oracle_twaps index clock)
  | .OrcaWhirlpoolAtoB =>
      some (A.orca_whirlpool_get_price true base_account clock extra_accounts)
  | .OrcaWhirlpoolBtoA =>
      some (A.orca_whirlpool_get_price false base_account clock extra_accounts)
  | .RaydiumAmmV3AtoB => some (A.raydium_ammv3_get_price true base_account clock)
  | .RaydiumAmmV3BtoA => some (A.raydium_ammv3_get_price false base_account clock)
  | .MeteoraDlmmAtoB =>
      some (A.meteora_dlmm_get_price true base_account clock extra_accounts)
  | .MeteoraDlmmBtoA =>
      some (A.meteora_dlmm_get_price false base_account clock extra_accounts)
  | .JupiterLpCompute =>
      some (A.jupiter_lp_get_price_recomputed base_account clock extra_accounts)
  | .JupiterLpScope =>
      some (match oracle_prices.load with
        | Except.error e => Except.error e
        | Except.ok op =>
            A.jupiter_lp_get_price_recomputed_scope index base_account clock
              oracle_prices.key op oracle_mappings extra_accounts)
  | .FixedPrice =>
      match Price.deserialize (oracle_mappings.generic index) with
      | none => none
      | some (price, _) =>
        if clock.unix_timestamp < 0 then none
        else
          some (Except.ok
            { price := price,
              last_updated_slot := clock.slot,
              unix_timestamp := clock.unix_timestamp.toNat })
  | .DeprecatedPlaceholder1 | .DeprecatedPlaceholder2 => none

/-- Embeds `validate_oracle_cfg` (mod.rs lines 269-314), the config validator;
`none` models the `panic!` on the deprecated placeholder variants. -/
def validate_oracle_cfg (A : Adapters) (price_type : OracleType)
    (price_account : Option AccountInfo) (twap_source : Nat) (generic_data : List Nat) :
    Option (Except ScopeError Unit) :=
  match price_type with
  | .Pyth => some (A.pyth_validate_pyth_price_info price_account)
  | .PythPullBased => some (A.pyth_pull_based_validate_price_update_v2_info price_account)
  | .PythPullBasedEMA => some (A.pyth_pull_based_validate_price_update_v2_info price_account)
  | .SwitchboardV2 => some (Except.ok ())
  | .CToken => some (Except.ok ())
  | .SplStake => some (Except.ok ())
  | .KToken => some (Except.ok ())
  | .KTokenToTokenA => some (Except.ok ())
  | .KTokenToTokenB => some (Except.ok ())
  | .PythEMA => some (A.pyth_validate_pyth_price_info price_account)
  | .MsolStake => some (Except.ok ())
  | .JupiterLpFetch | .JupiterLpCompute | .JupiterLpScope =>
      some (A.jupiter_lp_validate_jlp_pool price_account)
  | .ScopeTwap => some (A.twap_validate_price_account price_account twap_source)
  | .OrcaWhirlpoolAtoB | .OrcaWhirlpoolBtoA =>
      some (A.orca_whirlpool_validate_pool_account price_account)
  | .RaydiumAmmV3AtoB | .RaydiumAmmV3BtoA =>
      some (A.raydium_ammv3_validate_pool_account price_account)
  | .MeteoraDlmmAtoB | .MeteoraDlmmBtoA =>
      some (A.meteora_dlmm_validate_pool_account price_account)
  | .FixedPrice =>
      some (if price_account.isSome then Except.error ScopeError.PriceNotValid
        else
          match Price.deserialize generic_data with
          | none => Except.error ScopeError.FixedPriceInvalid
          | some _ => Except.ok ())
  | .DeprecatedPlaceholder1 | .DeprecatedPlaceholder2 => none

/-! Concrete fixtures used by the witness theorems. -/

/-- A concrete adapter bundle whose every external call fails with a generic
adapter error; the claims below only concern the core's own branches, which
never depend on what the adapters return. -/
def trivialAdapters : Adapters where
  pyth_get_price := fun _ _ => Except.error (ScopeError.other 0)
  pyth_pull_based_get_price := fun _ _ => Except.error (ScopeError.other 0)
  pyth_pull_based_ema_get_price := fun _ _ => Except.error (ScopeError.other 0)
  switchboard_v2_get_price := fun _ => Except.error (ScopeError.other 0)
  ctokens_get_price := fun _ _ => Except.error (ScopeError.other 0)
  spl_stake_get_price := fun _ _ => Except.error (ScopeError.other 0)
  ktokens_get_price := fun _ _ _ => Except.error (ScopeError.other 0)
  pyth_ema_get_price := fun _ _ => Except.error (ScopeError.other 0)
  ktokens_token_x_get_token_x_per_share := fun _ _ _ _ => Except.error (ScopeError.other 0)
  msol_stake_get_price := fun _ _ => Except.error (ScopeError.other 0)
  jupiter_lp_get_price_no_recompute := fun _ _ _ => Except.error (ScopeError.other 0)
  twap_get_price := fun _ _ _ _ => Except.error (ScopeError.other 0)
  orca_whirlpool_get_price := fun _ _ _ _ => Except.error (ScopeError.other 0)
  raydium_ammv3_get_price := fun _ _ _ => Except.error (ScopeError.other 0)
  meteora_dlmm_get_price := fun _ _ _ _ => Except.error (ScopeError.other 0)
  jupiter_lp_get_price_recomputed := fun _ _ _ => Except.error (ScopeError.other 0)
  jupiter_lp_get_price_recomputed_scope := fun _ _ _ _ _ _ _ => Except.error (ScopeError.other 0)
  pyth_validate_pyth_price_info := fun _ => Except.error (ScopeError.other 0)
  pyth_pull_based_validate_price_update_v2_info := fun _ => Except.error (ScopeError.other 0)
  jupiter_lp_validate_jlp_pool := fun _ => Except.error (ScopeError.other 0)
  twap_validate_price_account := fun _ _ => Except.error (ScopeError.other 0)
  orca_whirlpool_validate_pool_account := fun _ => Except.error (ScopeError.other 0)
  raydium_ammv3_validate_pool_account := fun _ => Except.error (ScopeError.other 0)
  meteora_dlmm_validate_pool_account := fun _ => Except.error (ScopeError.other 0)

/-- An empty twap store. -/
def twapsA : OracleTwaps := ⟨fun _ => []⟩

/-- A twap store that differs from `twapsA` at every slot. -/
def twapsB : OracleTwaps := ⟨fun _ => [{}]⟩

/-- A resolved-price store loader holding default prices. -/
def loaderA : AccountLoader OraclePrices := ⟨0, Except.ok ⟨fun _ => {}⟩⟩

/-- A loader holding different resolved-price contents than `loaderA`. -/
def loaderB : AccountLoader OraclePrices :=
  ⟨0, Except.ok ⟨fun _ => { last_updated_slot := 7 }⟩⟩

/-- The 20-byte generic payload that Borsh-decodes to
`Price { mantissa := 12345, exponent := 6 }` (12345 = 57 + 256 * 48). -/
def good20 : List Nat :=
  [57, 48, 0, 0, 0, 0, 0, 0, 6, 0, 0, 0, 0, 0, 0, 0, 0, 0, 0, 0]

/-- A mapping store whose generic payload at every slot is `good20`. -/
def fxMappings : OracleMappings := ⟨fun _ => good20⟩

/-- A mapping store whose generic payload is too short to decode a `Price`. -/
def emptyMappings : OracleMappings := ⟨fun _ => []⟩

/-! Claim theorems. -/

/-- C1: for every clock with `unix_timestamp >= 0` and every mapping store
whose generic payload at `index` deserializes to a `Price` `p`, `get_price` on
the `FixedPrice` kind returns `Ok` of a `DatedPrice` carrying `p`, the caller's
slot and the caller's timestamp (with the metadata defaulted). -/
theorem claim_C1 (A : Adapters) (base : AccountInfo) (extras : List AccountInfo)
    (clock : Clock) (twaps : OracleTwaps) (mappings : OracleMappings)
    (pl : AccountLoader OraclePrices) (index : Nat) (p : Price) (rest : List Nat)
    (hts : 0 ≤ clock.unix_timestamp)
    (hdes : Price.deserialize (mappings.generic index) = some (p, rest)) :
    get_price A OracleType.FixedPrice base extras clock twaps mappings pl index
      = some (Except.ok
          { price := p,
            last_updated_slot := clock.slot,
            unix_timestamp := clock.unix_timestamp.toNat }) := by
  unfold get_price
  rw [hdes]
  simp [not_lt.mpr hts]

/-- Witness for C1 at the spec's concrete example: payload decoding to
`{mantissa: 12345, exponent: 6}` and `now = {slot: 100, unix_time:
1_700_000_000}`. -/
theorem claim_C1_witness :
    get_price trivialAdapters OracleType.FixedPrice ⟨0⟩ [] ⟨100, 1700000000⟩
        twapsA fxMappings loaderA 0
      = some (Except.ok
          { price := { mantissa := 12345, exponent := 6 },
            last_updated_slot := 100,
            unix_timestamp := 1700000000 }) := by
  have h := claim_C1 trivialAdapters ⟨0⟩ [] ⟨100, 1700000000⟩ twapsA fxMappings
    loaderA 0 { mantissa := 12345, exponent := 6 } [0, 0, 0, 0]
    (by decide) (by decide)
  simpa using h

/-- C2: on both deprecated placeholder kinds, `get_update_cu_budget`,
`get_price` and `validate_oracle_cfg` all abort (modelled as `none`) for all
possible arguments: no value, `Ok` or typed error is ever produced. -/
theorem claim_C2 (t : OracleType)
    (h : t = OracleType.DeprecatedPlaceholder1 ∨ t = OracleType.DeprecatedPlaceholder2)
    (A : Adapters) (base : AccountInfo) (extras : List AccountInfo) (clock : Clock)
    (twaps : OracleTwaps) (mappings : OracleMappings) (pl : AccountLoader OraclePrices)
    (index : Nat) (pa : Option AccountInfo) (ts : Nat) (gd : List Nat) :
    t.get_update_cu_budget = none ∧
    get_price A t base extras clock twaps mappings pl index = none ∧
    validate_oracle_cfg A t pa ts gd = none := by
  rcases h with h | h <;> subst h <;> exact ⟨rfl, rfl, rfl⟩

/-- Witness for C2 at `DeprecatedPlaceholder1` with concrete arguments. -/
theorem claim_C2_witness :
    OracleType.DeprecatedPlaceholder1.get_update_cu_budget = none ∧
    get_price trivialAdapters OracleType.DeprecatedPlaceholder1 ⟨0⟩ [] ⟨0, 0⟩
      twapsA fxMappings loaderA 0 = none ∧
    validate_oracle_cfg trivialAdapters OracleType.DeprecatedPlaceholder1 none 0 good20
      = none :=
  claim_C2 OracleType.DeprecatedPlaceholder1 (Or.inl rfl) trivialAdapters ⟨0⟩ []
    ⟨0, 0⟩ twapsA fxMappings loaderA 0 none 0 good20

/-- C3: on every live (non-deprecated) kind `get_update_cu_budget` returns a
fixed, strictly positive compute-unit value (a static constant of the kind);
in particular FixedPrice gives 10000, Pyth 30000 and CToken 130000. -/
theorem claim_C3 (t : OracleType)
    (h : t ≠ OracleType.DeprecatedPlaceholder1 ∧ t ≠ OracleType.DeprecatedPlaceholder2) :
    (∃ n, t.get_update_cu_budget = some n ∧ 0 < n) ∧
    OracleType.FixedPrice.get_update_cu_budget = some 10000 ∧
    OracleType.Pyth.get_update_cu_budget = some 30000 ∧
    OracleType.CToken.get_update_cu_budget = some 130000 := by
  refine ⟨?_, rfl, rfl, rfl⟩
  cases t <;>
    first
      | exact absurd rfl h.1
      | exact absurd rfl h.2
      | exact ⟨_, rfl, by decide⟩

/-- Witness for C3 at the live kind `Pyth`. -/
theorem claim_C3_witness :
    (∃ n, OracleType.Pyth.get_update_cu_budget = some n ∧ 0 < n) ∧
    OracleType.FixedPrice.get_update_cu_budget = some 10000 ∧
    OracleType.Pyth.get_update_cu_budget = some 30000 ∧
    OracleType.CToken.get_update_cu_budget = some 130000 :=
  claim_C3 OracleType.Pyth ⟨by decide, by decide⟩

/-- C4: validating the `FixedPrice` kind fails with `PriceNotValid` whenever a
price account is supplied, regardless of the payload; with no account and an
undecodable payload it fails with the distinct `FixedPriceInvalid` error; with
no account and a decodable payload it succeeds. -/
theorem claim_C4 (A : Adapters) (pa : Option AccountInfo) (ts : Nat) (gd : List Nat) :
    (pa.isSome = true →
      validate_oracle_cfg A OracleType.FixedPrice pa ts gd
        = some (Except.error ScopeError.PriceNotValid)) ∧
    (pa = none → Price.deserialize gd = none →
      validate_oracle_cfg A OracleType.FixedPrice pa ts gd
        = some (Except.error ScopeError.FixedPriceInvalid)) ∧
    (pa = none → ∀ pr, Price.deserialize gd = some pr →
      validate_oracle_cfg A OracleType.FixedPrice pa ts gd
        = some (Except.ok ())) := by
  refine ⟨fun hsome => ?_, fun hnone hdes => ?_, fun hnone pr hdes => ?_⟩
  · unfold validate_oracle_cfg
    simp [hsome]
  · subst hnone
    unfold validate_oracle_cfg
    simp [hdes]
  · subst hnone
    unfold validate_oracle_cfg
    simp [hdes]

/-- Witness for C4: account present is rejected as `PriceNotValid`; no account
with an undecodable payload is rejected as `FixedPriceInvalid`; no account with
the decodable payload is accepted. -/
theorem claim_C4_witness :
    validate_oracle_cfg trivialAdapters OracleType.FixedPrice (some ⟨0⟩) 0 good20
      = some (Except.error ScopeError.PriceNotValid) ∧
    validate_oracle_cfg trivialAdapters OracleType.FixedPrice none 0 []
      = some (Except.error ScopeError.FixedPriceInvalid) ∧
    validate_oracle_cfg trivialAdapters OracleType.FixedPrice none 0 good20
      = some (Except.ok ()) :=
  ⟨(claim_C4 trivialAdapters (some ⟨0⟩) 0 good20).1 rfl,
   (claim_C4 trivialAdapters none 0 []).2.1 rfl rfl,
   (claim_C4 trivialAdapters none 0 good20).2.2 rfl
     ({ mantissa := 12345, exponent := 6 }, [0, 0, 0, 0]) (by decide)⟩

/-- C5: `check_context` returns the `UnexpectedAccount` error exactly when the
context's remaining account list is non-empty, and `Ok` exactly when it is
empty. -/
theorem claim_C5 (ctx : Context) :
    (check_context ctx = Except.error ScopeError.UnexpectedAccount ↔
      ctx.remaining_accounts ≠ []) ∧
    (check_context ctx = Except.ok () ↔ ctx.remaining_accounts = []) := by
  obtain ⟨l⟩ := ctx
  cases l <;> simp [check_context]

/-- Witness for C5 at an empty and a one-element remaining account list. -/
theorem claim_C5_witness :
    check_context ⟨[]⟩ = Except.ok () ∧
    check_context ⟨[⟨0⟩]⟩ = Except.error ScopeError.UnexpectedAccount :=
  ⟨(claim_C5 ⟨[]⟩).2.mpr rfl, (claim_C5 ⟨[⟨0⟩]⟩).1.mpr (by simp)⟩

/-- C6: the kind-to-discriminant table is exactly the fixed numbering 0..23 of
the enum declaration; the retired wire values 1 and 3 map back to the
placeholder variants; and converting any kind to its u8 value and back yields
the same kind. -/
theorem claim_C6 :
    OracleType.Pyth.toU8 = 0 ∧
    OracleType.DeprecatedPlaceholder1.toU8 = 1 ∧
    OracleType.SwitchboardV2.toU8 = 2 ∧
    OracleType.DeprecatedPlaceholder2.toU8 = 3 ∧
    OracleType.CToken.toU8 = 4 ∧
    OracleType.SplStake.toU8 = 5 ∧
    OracleType.KToken.toU8 = 6 ∧
    OracleType.PythEMA.toU8 = 7 ∧
    OracleType.MsolStake.toU8 = 8 ∧
    OracleType.KTokenToTokenA.toU8 = 9 ∧
    OracleType.KTokenToTokenB.toU8 = 10 ∧
    OracleType.JupiterLpFetch.toU8 = 11 ∧
    OracleType.ScopeTwap.toU8 = 12 ∧
    OracleType.OrcaWhirlpoolAtoB.toU8 = 13 ∧
    OracleType.OrcaWhirlpoolBtoA.toU8 = 14 ∧
    OracleType.RaydiumAmmV3AtoB.toU8 = 15 ∧
    OracleType.RaydiumAmmV3BtoA.toU8 = 16 ∧
    OracleType.JupiterLpCompute.toU8 = 17 ∧
    OracleType.MeteoraDlmmAtoB.toU8 = 18 ∧
    OracleType.MeteoraDlmmBtoA.toU8 = 19 ∧
    OracleType.JupiterLpScope.toU8 = 20 ∧
    OracleType.PythPullBased.toU8 = 21 ∧
    OracleType.PythPullBasedEMA.toU8 = 22 ∧
    OracleType.FixedPrice.toU8 = 23 ∧
    OracleType.tryFromU8 1 = some OracleType.DeprecatedPlaceholder1 ∧
    OracleType.tryFromU8 3 = some OracleType.DeprecatedPlaceholder2 ∧
    ∀ t : OracleType, OracleType.tryFromU8 t.toU8 = some t := by
  refine ⟨rfl, rfl, rfl, rfl, rfl, rfl, rfl, rfl, rfl, rfl, rfl, rfl, rfl, rfl,
    rfl, rfl, rfl, rfl, rfl, rfl, rfl, rfl, rfl, rfl, rfl, rfl, ?_⟩
  intro t
  cases t <;> rfl

/-- C7: `is_twap` is true for exactly the kind `ScopeTwap` and false for every
other kind of the enumeration. -/
theorem claim_C7 :
    ∀ t : OracleType, t.is_twap = true ↔ t = OracleType.ScopeTwap := by
  intro t
  cases t <;> simp [OracleType.is_twap]

/-- Witness for C7 at the kinds `ScopeTwap` and `Pyth`. -/
theorem claim_C7_witness :
    OracleType.ScopeTwap.is_twap = true ∧ OracleType.Pyth.is_twap = false := by
  refine ⟨(claim_C7 OracleType.ScopeTwap).mpr rfl, ?_⟩
  have h := claim_C7 OracleType.Pyth
  simpa using h

/-- C8: the validator accepts the kinds SwitchboardV2, CToken, SplStake,
KToken, KTokenToTokenA, KTokenToTokenB and MsolStake unconditionally, for
every combination of account, twap source and payload. -/
theorem claim_C8 (A : Adapters) (pa : Option AccountInfo) (ts : Nat) (gd : List Nat) :
    validate_oracle_cfg A OracleType.SwitchboardV2 pa ts gd = some (Except.ok ()) ∧
    validate_oracle_cfg A OracleType.CToken pa ts gd = some (Except.ok ()) ∧
    validate_oracle_cfg A OracleType.SplStake pa ts gd = some (Except.ok ()) ∧
    validate_oracle_cfg A OracleType.KToken pa ts gd = some (Except.ok ()) ∧
    validate_oracle_cfg A OracleType.KTokenToTokenA pa ts gd = some (Except.ok ()) ∧
    validate_oracle_cfg A OracleType.KTokenToTokenB pa ts gd = some (Except.ok ()) ∧
    validate_oracle_cfg A OracleType.MsolStake pa ts gd = some (Except.ok ()) :=
  ⟨rfl, rfl, rfl, rfl, rfl, rfl, rfl⟩

/-- C9: `get_price` on `FixedPrice` is not total: it aborts when the generic
payload at `index` does not deserialize as a `Price`, and aborts when the
clock's timestamp is negative; but whenever `validate_oracle_cfg` accepted
that payload (with no account) and the timestamp is non-negative, it returns
`Ok`. -/
theorem claim_C9 (A : Adapters) (base : AccountInfo) (extras : List AccountInfo)
    (clock : Clock) (twaps : OracleTwaps) (mappings : OracleMappings)
    (pl : AccountLoader OraclePrices) (index : Nat) (ts : Nat) :
    (Price.deserialize (mappings.generic index) = none →
      get_price A OracleType.FixedPrice base extras clock twaps mappings pl index
        = none) ∧
    (clock.unix_timestamp < 0 →
      get_price A OracleType.FixedPrice base extras clock twaps mappings pl index
        = none) ∧
    (validate_oracle_cfg A OracleType.FixedPrice none ts (mappings.generic index)
        = some (Except.ok ()) →
      0 ≤ clock.unix_timestamp →
      ∃ dp, get_price A OracleType.FixedPrice base extras clock twaps mappings pl index
        = some (Except.ok dp)) := by
  refine ⟨fun hdes => ?_, fun hneg => ?_, fun hval hts => ?_⟩
  · unfold get_price
    rw [hdes]
  · unfold get_price
    cases hdes : Price.deserialize (mappings.generic index) with
    | none => rfl
    | some pr => simp [hneg]
  · cases hdes : Price.deserialize (mappings.generic index) with
    | none =>
        exfalso
        unfold validate_oracle_cfg at hval
        rw [hdes] at hval
        simp at hval
    | some pr =>
        refine ⟨{ price := pr.1,
                  last_updated_slot := clock.slot,
                  unix_timestamp := clock.unix_timestamp.toNat }, ?_⟩
        unfold get_price
        rw [hdes]
        simp [not_lt.mpr hts]

/-- Witness for C9: an undecodable payload aborts, a negative timestamp
aborts, and a validated payload with a non-negative timestamp succeeds. -/
theorem claim_C9_witness :
    get_price trivialAdapters OracleType.FixedPrice ⟨0⟩ [] ⟨0, 0⟩ twapsA
        emptyMappings loaderA 0 = none ∧
    get_price trivialAdapters OracleType.FixedPrice ⟨0⟩ [] ⟨0, -1⟩ twapsA
        fxMappings loaderA 0 = none ∧
    ∃ dp, get_price trivialAdapters OracleType.FixedPrice ⟨0⟩ []
        ⟨100, 1700000000⟩ twapsA fxMappings loaderA 0 = some (Except.ok dp) :=
  ⟨(claim_C9 trivialAdapters ⟨0⟩ [] ⟨0, 0⟩ twapsA emptyMappings loaderA 0 0).1 rfl,
   (claim_C9 trivialAdapters ⟨0⟩ [] ⟨0, -1⟩ twapsA fxMappings loaderA 0 0).2.1
     (by decide),
   (claim_C9 trivialAdapters ⟨0⟩ [] ⟨100, 1700000000⟩ twapsA fxMappings loaderA
     0 0).2.2 rfl (by decide)⟩

/-- C10: for every kind other than `ScopeTwap` the result of `get_price` does
not depend on the twap store, and for every kind other than `JupiterLpScope`
it does not depend on the resolved-price store loader. -/
theorem claim_C10 (A : Adapters) (t : OracleType) (base : AccountInfo)
    (extras : List AccountInfo) (clock : Clock) (mappings : OracleMappings)
    (index : Nat) :
    (∀ tw1 tw2 pl, t ≠ OracleType.ScopeTwap →
      get_price A t base extras clock tw1 mappings pl index
        = get_price A t base extras clock tw2 mappings pl index) ∧
    (∀ tw pl1 pl2, t ≠ OracleType.JupiterLpScope →
      get_price A t base extras clock tw mappings pl1 index
        = get_price A t base extras clock tw mappings pl2 index) := by
  constructor
  · intro tw1 tw2 pl h
    cases t <;> first | rfl | exact absurd rfl h
  · intro tw pl1 pl2 h
    cases t <;> first | rfl | exact absurd rfl h

/-- Witness for C10 at the kind `Pyth` with two twap stores and two loaders
whose contents differ. -/
theorem claim_C10_witness :
    get_price trivialAdapters OracleType.Pyth ⟨0⟩ [] ⟨0, 0⟩ twapsA fxMappings
        loaderA 0
      = get_price trivialAdapters OracleType.Pyth ⟨0⟩ [] ⟨0, 0⟩ twapsB
        fxMappings loaderA 0 ∧
    get_price trivialAdapters OracleType.Pyth ⟨0⟩ [] ⟨0, 0⟩ twapsA fxMappings
        loaderA 0
      = get_price trivialAdapters OracleType.Pyth ⟨0⟩ [] ⟨0, 0⟩ twapsA
        fxMappings loaderB 0 :=
  ⟨(claim_C10 trivialAdapters OracleType.Pyth ⟨0⟩ [] ⟨0, 0⟩ fxMappings 0).1
     twapsA twapsB loaderA (by decide),
   (claim_C10 trivialAdapters OracleType.Pyth ⟨0⟩ [] ⟨0, 0⟩ fxMappings 0).2
     twapsA loaderA loaderB (by decide)⟩

end Scope
